import Mathlib

/-!
Shallow embedding of `pyod/models/so_gaal.py` (class `SO_GAAL`).

The network-library primitives (keras layers, optimizers, `train_on_batch`,
`evaluate`, `predict`) are opaque external collaborators; they are modelled by
an abstract record of functions `KerasOps` over abstract parameter spaces
`GenP` (generator weights) and `DisP` (discriminator weights).  A forward pass
of a network over a batch is per-sample, so batch prediction is `List.map` of
the single-row function.  The pseudo-random noise source `np.random.uniform`
is modelled by an oracle `rng` indexed by a draw counter; the *shape* of the
noise matrix is produced by the code itself, faithfully to
`np.random.uniform(0, 1, (noise_size, latent_size))`.

Python machine integers are `Nat`/`Int`; `int(data_size / batch_size)` on
non-negative operands is `Nat` floor division.  Matrix entries are opaque
numbers, represented as `Int`.  The Python `for` loop containing a `return`
statement is embedded as structural recursion returning `Except ρ σ`:
`Except.error r` is the early `return r`, `Except.ok s` means the loop
finished normally and the state is `s`.
-/

namespace SoGaal

/-- Activation function of a dense layer, as named in the source. -/
inductive Activation where
  | relu
  | sigmoid
  deriving DecidableEq, Repr

/-- Static description of one `Dense` layer as built in the source:
number of units, optional `input_dim`, and activation. -/
structure LayerSpec where
  units : Nat
  input_dim : Option Nat
  activation : Activation
  deriving DecidableEq, Repr

/-- Executable embedding of `math.ceil(math.sqrt n)` on a natural number. -/
def ceilSqrt (n : Nat) : Nat :=
  if Nat.sqrt n * Nat.sqrt n = n then Nat.sqrt n else Nat.sqrt n + 1

/-- `SO_GAAL.create_discriminator`: one hidden dense layer of width
`math.ceil(math.sqrt(data_size))` with relu activation and `input_dim =
latent_size`, then a single-unit sigmoid output layer. -/
def create_discriminator (latent_size data_size : Nat) : List LayerSpec :=
  [{ units := ceilSqrt data_size, input_dim := some latent_size,
     activation := Activation.relu },
   { units := 1, input_dim := none, activation := Activation.sigmoid }]

/-- `SO_GAAL.create_generator`: two dense layers of width `latent_size`,
relu activation, identity initialization (the initializer is opaque here). -/
def create_generator (latent_size : Nat) : List LayerSpec :=
  [{ units := latent_size, input_dim := some latent_size,
     activation := Activation.relu },
   { units := latent_size, input_dim := none, activation := Activation.relu }]

/-- A data matrix: a list of rows, entries opaque numbers. -/
abbrev Mat := List (List Int)

/-- `X.shape[1]`: the common row length of a validated matrix. -/
def numFeatures (X : Mat) : Nat := (X.headD []).length

/-- Python slice `X[a : b]` for `0 ≤ a ≤ b`. -/
def pySlice (X : Mat) (a b : Nat) : Mat := (X.drop a).take (b - a)

/-- `batch_size = min(500, data_size)` (line 202 of the source). -/
def batch_size (data_size : Nat) : Nat := min 500 data_size

/-- `num_batches = int(data_size / batch_size)` (line 203); floor division on
non-negative integers. -/
def num_batches (data_size : Nat) : Nat := data_size / batch_size data_size

/-- The pseudo-random source: draw number, row, column ↦ value. -/
abbrev RNG := Nat → Nat → Nat → Int

/-- `np.random.uniform(0, 1, (rows, cols))` at draw number `k`: the shape comes
from the code, the entries from the oracle. -/
def mkNoise (rng : RNG) (k rows cols : Nat) : Mat :=
  (List.range rows).map fun i => (List.range cols).map fun j => rng k i j

/-- Errors surfaced by the sklearn validation collaborators. -/
inductive PyError where
  | notFitted
  | invalidInput
  deriving DecidableEq, Repr

/-- A matrix accepted by `check_array`: non-empty, with a positive and
consistent number of columns. -/
def validX (X : Mat) : Prop :=
  X ≠ [] ∧ 0 < numFeatures X ∧ ∀ r ∈ X, r.length = numFeatures X

instance (X : Mat) : Decidable (validX X) := by
  unfold validX
  exact inferInstance

/-- `sklearn.utils.check_array`, restricted to the shape checks that matter
for this embedding. -/
def check_array (X : Mat) : Except PyError Mat :=
  if validX X then Except.ok X else Except.error PyError.invalidInput

/-- The opaque network-library operations.  `genRow`/`disRow` are the forward
passes of generator and discriminator on one sample; `disTrain` is
`discriminator.train_on_batch` (returns updated weights and the loss);
`combTrain` is `combine_model.train_on_batch`, which updates only the
generator weights because the discriminator is frozen inside the combined
model; `combEval` is `combine_model.evaluate`, which updates nothing. -/
structure KerasOps (GenP DisP : Type) where
  genRow : GenP → List Int → List Int
  disRow : DisP → List Int → Int
  disTrain : DisP → Mat → List Nat → DisP × Int
  combTrain : GenP → DisP → Mat → List Nat → GenP × Int
  combEval : GenP → DisP → Mat → List Nat → Int

/-- Ghost record of one executed batch of the training loop: which epoch and
batch index ran, the value of `stop` at that batch, the real rows read from
`X`, the generated rows, the concatenated discriminator batch and its labels,
and whether the generator-phase step was a real update (`train_on_batch`)
rather than an `evaluate`. -/
structure BatchRec where
  epoch : Nat
  index : Nat
  stopAt : Nat
  dataRows : Mat
  genRows : Mat
  xBatch : Mat
  labels : List Nat
  genUpdated : Bool
  deriving DecidableEq, Repr

/-- Mutable state threaded through the training loop of `fit`. -/
structure FitState (GenP DisP : Type) where
  stop : Nat
  genP : GenP
  disP : DisP
  histD : List Int
  histG : List Int
  ctr : Nat
  trace : List BatchRec
  deriving DecidableEq, Repr

/-- Payload of the `return self` statement sitting inside the epoch loop:
the state at the return together with `decision_scores_`. -/
structure FitRet (GenP DisP : Type) where
  state : FitState GenP DisP
  scores : List Int
  deriving DecidableEq, Repr

/-- The fitted-attribute record of an `SO_GAAL` instance. -/
structure Detector (GenP DisP : Type) where
  discriminator : Option DisP := none
  generator : Option GenP := none
  decision_scores_ : Option (List Int) := none
  train_history : List Int × List Int := ([], [])
  processed : Bool := false
  trace : List BatchRec := []
  deriving DecidableEq, Repr

/-- A freshly constructed instance: no attribute set by `fit` exists yet. -/
def initDetector (GenP DisP : Type) : Detector GenP DisP := {}

/-- Loop state at entry of the epoch loop (`stop = 0`, empty history). -/
def initFitState {GenP DisP : Type} (g0 : GenP) (d0 : DisP) :
    FitState GenP DisP :=
  { stop := 0, genP := g0, disP := d0, histD := [], histG := [], ctr := 0,
    trace := [] }

section Ops

variable {GenP DisP : Type} (ops : KerasOps GenP DisP) (rng : RNG)

/-- One iteration of the inner batch loop (source lines 205-237). -/
def batchBody (X : Mat) (epoch : Nat) (s : FitState GenP DisP) (index : Nat) :
    FitState GenP DisP :=
  let bs := batch_size X.length
  let noise := mkNoise rng s.ctr bs (numFeatures X)
  let data_batch := pySlice X (index * bs) ((index + 1) * bs)
  let generated_data := noise.map (ops.genRow s.genP)
  let x := data_batch ++ generated_data
  let y : List Nat := List.replicate bs 1 ++ List.replicate bs 0
  let disP1 := (ops.disTrain s.disP x y).1
  let dLoss := (ops.disTrain s.disP x y).2
  let trick : List Nat := List.replicate bs 1
  if s.stop = 0 then
    { stop := s.stop, genP := (ops.combTrain s.genP disP1 noise trick).1,
      disP := disP1, histD := s.histD ++ [dLoss],
      histG := s.histG ++ [(ops.combTrain s.genP disP1 noise trick).2],
      ctr := s.ctr + 1,
      trace := s.trace ++
        [{ epoch := epoch, index := index, stopAt := s.stop,
           dataRows := data_batch, genRows := generated_data, xBatch := x,
           labels := y, genUpdated := true }] }
  else
    { stop := s.stop, genP := s.genP, disP := disP1,
      histD := s.histD ++ [dLoss],
      histG := s.histG ++ [ops.combEval s.genP disP1 noise trick],
      ctr := s.ctr + 1,
      trace := s.trace ++
        [{ epoch := epoch, index := index, stopAt := s.stop,
           dataRows := data_batch, genRows := generated_data, xBatch := x,
           labels := y, genUpdated := false }] }

/-- The full inner batch loop of one epoch. -/
def batchFold (X : Mat) (epoch : Nat) (s : FitState GenP DisP) :
    FitState GenP DisP :=
  (List.range (num_batches X.length)).foldl (batchBody ops rng X epoch) s

/-- The ghost record appended to the trace by `batchBody` at state `s` and
batch `index`. -/
def mkRec (X : Mat) (epoch : Nat) (s : FitState GenP DisP) (index : Nat) :
    BatchRec :=
  { epoch := epoch, index := index, stopAt := s.stop,
    dataRows := pySlice X (index * batch_size X.length)
      ((index + 1) * batch_size X.length),
    genRows := (mkNoise rng s.ctr (batch_size X.length)
      (numFeatures X)).map (ops.genRow s.genP),
    xBatch := pySlice X (index * batch_size X.length)
        ((index + 1) * batch_size X.length) ++
      (mkNoise rng s.ctr (batch_size X.length)
        (numFeatures X)).map (ops.genRow s.genP),
    labels := List.replicate (batch_size X.length) 1 ++
      List.replicate (batch_size X.length) 0,
    genUpdated := decide (s.stop = 0) }

/-- The body of the epoch loop (source lines 200-246): run the batch loop,
maybe set `stop`, then compute `decision_scores_` over the whole of `X`,
process them, and `return self` — which in this embedding is the
unconditional `Except.error`. -/
def epochBody (stop_epochs : Int) (X : Mat) (epoch : Nat)
    (s : FitState GenP DisP) :
    Except (FitRet GenP DisP) (FitState GenP DisP) :=
  let s1 := batchFold ops rng X epoch s
  let s2 := if (epoch : Int) + 1 > stop_epochs then { s1 with stop := 1 }
            else s1
  Except.error { state := s2, scores := X.map (ops.disRow s2.disP) }

end Ops

/-- A Python `for` loop whose body may execute `return` (the `Except.error`
case): on `return` the remaining iterations are discarded. -/
def runEpochs {σ ρ : Type} (body : Nat → σ → Except ρ σ) :
    List Nat → σ → Except ρ σ
  | [], s => Except.ok s
  | e :: es, s =>
    match body e s with
    | Except.error r => Except.error r
    | Except.ok s1 => runEpochs body es s1

section Fit

variable {GenP DisP : Type} (ops : KerasOps GenP DisP) (rng : RNG)

/-- `SO_GAAL.fit`.  `g0`/`d0` are the freshly initialized weights produced by
the builders (their random initialization is opaque).  The `Bool` in the
result is `true` when the function returned `self` (the `return` inside the
epoch loop was reached) and `false` when it fell off the loop and returned
`None`.  Either way the attributes set before the loop (`discriminator`,
`generator`, `train_history`) are present on the instance. -/
def fit (stop_epochs : Int) (g0 : GenP) (d0 : DisP) (X : Mat) :
    Except PyError (Detector GenP DisP × Bool) :=
  match check_array X with
  | Except.error e => Except.error e
  | Except.ok X1 =>
    match runEpochs (epochBody ops rng stop_epochs X1)
        (List.range (stop_epochs * 3).toNat) (initFitState g0 d0) with
    | Except.error r =>
      Except.ok
        ({ discriminator := some r.state.disP, generator := some r.state.genP,
           decision_scores_ := some r.scores,
           train_history := (r.state.histD, r.state.histG),
           processed := true, trace := r.state.trace }, true)
    | Except.ok s =>
      Except.ok
        ({ discriminator := some s.disP, generator := some s.genP,
           decision_scores_ := none, train_history := (s.histD, s.histG),
           processed := false, trace := s.trace }, false)

/-- `SO_GAAL.decision_function`: `check_is_fitted(self, ['discriminator'])`
runs before `check_array(X)`, which runs before the prediction. -/
def decision_function (det : Detector GenP DisP) (X : Mat) :
    Except PyError (List Int) :=
  match det.discriminator with
  | none => Except.error PyError.notFitted
  | some d =>
    match check_array X with
    | Except.error e => Except.error e
    | Except.ok X1 => Except.ok (X1.map (ops.disRow d))

end Fit

/-- A concrete, trivial instantiation of the opaque network library, used to
evaluate the model on concrete inputs. -/
def ops0 : KerasOps Unit Unit where
  genRow := fun _ r => r
  disRow := fun _ _ => 0
  disTrain := fun _ _ _ => ((), 0)
  combTrain := fun _ _ _ _ => ((), 0)
  combEval := fun _ _ _ _ => 0

/-- A concrete pseudo-random source. -/
def rng0 : RNG := fun _ _ _ => 0

/-- A concrete valid training matrix with 1000 rows and one feature. -/
def X1000 : Mat := [0] :: List.replicate 999 [0]

/-- A concrete loop state in which the stop flag has been raised. -/
def stateStop1 : FitState Unit Unit :=
  { stop := 1, genP := (), disP := (), histD := [], histG := [], ctr := 0,
    trace := [] }

/-- The detector state produced by `fit` with `stop_epochs = 0` on `[[0]]`:
networks built and compiled, but no epoch body executed. -/
def det0 : Detector Unit Unit :=
  { discriminator := some (), generator := some () }

section Lemmas

variable {GenP DisP : Type} (ops : KerasOps GenP DisP) (rng : RNG)

lemma batchBody_stop (X : Mat) (e : Nat) (s : FitState GenP DisP) (i : Nat) :
    (batchBody ops rng X e s i).stop = s.stop := by
  by_cases h : s.stop = 0 <;> simp [batchBody, h]

lemma batchBody_trace (X : Mat) (e : Nat) (s : FitState GenP DisP) (i : Nat) :
    (batchBody ops rng X e s i).trace =
      s.trace ++ [mkRec ops rng X e s i] := by
  by_cases h : s.stop = 0 <;> simp [batchBody, mkRec, h]

lemma batchBody_genP_frozen (X : Mat) (e : Nat) (s : FitState GenP DisP)
    (i : Nat) (h : s.stop = 1) : (batchBody ops rng X e s i).genP = s.genP := by
  simp [batchBody, h]

lemma batchBody_histG_frozen (X : Mat) (e : Nat) (s : FitState GenP DisP)
    (i : Nat) (h : s.stop = 1) :
    (batchBody ops rng X e s i).histG =
      s.histG ++ [ops.combEval s.genP (batchBody ops rng X e s i).disP
        (mkNoise rng s.ctr (batch_size X.length) (numFeatures X))
        (List.replicate (batch_size X.length) 1)] := by
  simp [batchBody, h]

lemma foldl_batch_stop (X : Mat) (e : Nat) (l : List Nat) :
    ∀ s : FitState GenP DisP,
      (l.foldl (batchBody ops rng X e) s).stop = s.stop := by
  induction l with
  | nil => intro s; rfl
  | cons i t ih =>
    intro s
    rw [List.foldl_cons, ih, batchBody_stop]

lemma foldl_batch_trace_index (X : Mat) (e : Nat) (l : List Nat) :
    ∀ s : FitState GenP DisP,
      ((l.foldl (batchBody ops rng X e) s).trace).map BatchRec.index =
        s.trace.map BatchRec.index ++ l := by
  induction l with
  | nil => intro s; simp
  | cons i t ih =>
    intro s
    rw [List.foldl_cons, ih, batchBody_trace]
    simp [mkRec]

lemma foldl_batch_trace_mem (X : Mat) (e : Nat) (l : List Nat) :
    ∀ s : FitState GenP DisP, ∀ rec ∈ (l.foldl (batchBody ops rng X e) s).trace,
      rec ∈ s.trace ∨
        (rec.epoch = e ∧ rec.index ∈ l ∧ rec.stopAt = s.stop ∧
         rec.dataRows = pySlice X (rec.index * batch_size X.length)
           ((rec.index + 1) * batch_size X.length) ∧
         rec.genRows.length = batch_size X.length ∧
         rec.xBatch = rec.dataRows ++ rec.genRows ∧
         rec.labels = List.replicate (batch_size X.length) 1 ++
           List.replicate (batch_size X.length) 0 ∧
         rec.genUpdated = decide (s.stop = 0)) := by
  induction l with
  | nil => intro s rec h; exact Or.inl h
  | cons i t ih =>
    intro s rec h
    rw [List.foldl_cons] at h
    rcases ih (batchBody ops rng X e s i) rec h with h1 | h2
    · rw [batchBody_trace] at h1
      rcases List.mem_append.1 h1 with h3 | h4
      · exact Or.inl h3
      · have hrec : rec = mkRec ops rng X e s i := by simpa using h4
        subst hrec
        refine Or.inr ⟨rfl, List.mem_cons_self _ _, rfl, rfl, ?_, rfl, rfl, rfl⟩
        simp [mkRec, mkNoise]
    · obtain ⟨he, hi, hst, hd, hg, hx, hl, hu⟩ := h2
      rw [batchBody_stop] at hst hu
      exact Or.inr ⟨he, List.mem_cons_of_mem _ hi, hst, hd, hg, hx, hl, hu⟩

lemma runEpochs_cons {σ ρ : Type} (body : Nat → σ → Except ρ σ) (e : Nat)
    (es : List Nat) (s : σ) :
    runEpochs body (e :: es) s =
      match body e s with
      | Except.error r => Except.error r
      | Except.ok s1 => runEpochs body es s1 := rfl

lemma epochBody_zero (se : Int) (X : Mat) (s : FitState GenP DisP)
    (hs : 1 ≤ se) :
    epochBody ops rng se X 0 s =
      Except.error
        { state := batchFold ops rng X 0 s,
          scores := X.map (ops.disRow (batchFold ops rng X 0 s).disP) } := by
  have hif : ¬(((0 : Nat) : Int) + 1 > se) := by
    simp only [Nat.cast_zero, zero_add]; omega
  simp only [epochBody]
  rw [if_neg hif]

lemma fit_valid (se : Int) (g0 : GenP) (d0 : DisP) (X : Mat)
    (hX : validX X) :
    fit ops rng se g0 d0 X =
      (match runEpochs (epochBody ops rng se X)
          (List.range (se * 3).toNat) (initFitState g0 d0) with
       | Except.error r =>
         Except.ok
           ({ discriminator := some r.state.disP,
              generator := some r.state.genP,
              decision_scores_ := some r.scores,
              train_history := (r.state.histD, r.state.histG),
              processed := true, trace := r.state.trace }, true)
       | Except.ok s =>
         Except.ok
           ({ discriminator := some s.disP, generator := some s.genP,
              decision_scores_ := none, train_history := (s.histD, s.histG),
              processed := false, trace := s.trace }, false)) := by
  unfold fit check_array
  rw [if_pos hX]

lemma fit_of_one_le (se : Int) (g0 : GenP) (d0 : DisP) (X : Mat)
    (hs : 1 ≤ se) (hX : validX X) :
    fit ops rng se g0 d0 X =
      Except.ok
        ({ discriminator :=
             some (batchFold ops rng X 0 (initFitState g0 d0)).disP,
           generator := some (batchFold ops rng X 0 (initFitState g0 d0)).genP,
           decision_scores_ := some (X.map (ops.disRow
             (batchFold ops rng X 0 (initFitState g0 d0)).disP)),
           train_history :=
             ((batchFold ops rng X 0 (initFitState g0 d0)).histD,
              (batchFold ops rng X 0 (initFitState g0 d0)).histG),
           processed := true,
           trace := (batchFold ops rng X 0 (initFitState g0 d0)).trace },
         true) := by
  have h0 : (se * 3).toNat ≠ 0 := by omega
  obtain ⟨m, hm⟩ := Nat.exists_eq_succ_of_ne_zero h0
  rw [fit_valid ops rng se g0 d0 X hX, hm, List.range_succ_eq_map,
    runEpochs_cons, epochBody_zero ops rng se X _ hs]

lemma fit_of_nonpos (se : Int) (g0 : GenP) (d0 : DisP) (X : Mat)
    (hs : se ≤ 0) (hX : validX X) :
    fit ops rng se g0 d0 X =
      Except.ok ({ discriminator := some d0, generator := some g0,
                   decision_scores_ := none, train_history := ([], []),
                   processed := false, trace := [] }, false) := by
  have h0 : (se * 3).toNat = 0 := by omega
  rw [fit_valid ops rng se g0 d0 X hX, h0]
  rfl

lemma ceilSqrt_eq (n : Nat) : ceilSqrt n = ⌈Real.sqrt n⌉₊ := by
  unfold ceilSqrt
  by_cases h : Nat.sqrt n * Nat.sqrt n = n
  · rw [if_pos h]
    have h2 : ((n : ℝ)) = ((Nat.sqrt n : ℝ)) ^ 2 := by
      rw [sq]
      exact_mod_cast h.symm
    rw [h2, Real.sqrt_sq (by positivity), Nat.ceil_natCast]
  · rw [if_neg h]
    have h1 : Nat.sqrt n * Nat.sqrt n < n :=
      lt_of_le_of_ne (Nat.sqrt_le n) h
    have h2 : n < (Nat.sqrt n + 1) * (Nat.sqrt n + 1) := Nat.lt_succ_sqrt n
    symm
    rw [Nat.ceil_eq_iff (Nat.succ_ne_zero _)]
    constructor
    · have hlt : ((Nat.sqrt n : ℝ)) ^ 2 < (n : ℝ) := by
        rw [sq]; exact_mod_cast h1
      simpa using (Real.lt_sqrt (by positivity)).2 hlt
    · have hle : (n : ℝ) ≤ (((Nat.sqrt n + 1 : Nat)) : ℝ) ^ 2 := by
        rw [sq]; exact_mod_cast h2.le
      calc Real.sqrt n ≤ Real.sqrt ((((Nat.sqrt n + 1 : Nat)) : ℝ) ^ 2) :=
            Real.sqrt_le_sqrt hle
        _ = (((Nat.sqrt n + 1 : Nat)) : ℝ) := Real.sqrt_sq (by positivity)
        _ = _ := by push_cast; ring

lemma ceilSqrt_val (n k : Nat) (h1 : k * k ≤ n) (h2 : n < (k + 1) * (k + 1)) :
    ceilSqrt n = if k * k = n then k else k + 1 := by
  have h : Nat.sqrt n = k := (Nat.eq_sqrt.2 ⟨h1, h2⟩).symm
  unfold ceilSqrt
  rw [h]

lemma pySlice_length (X : Mat) (a b : Nat) :
    (pySlice X a b).length = min (b - a) (X.length - a) := by
  simp [pySlice]

lemma succ_mul_batch_le (n i : Nat) (h : i < num_batches n) :
    (i + 1) * batch_size n ≤ n := by
  have h1 : i + 1 ≤ n / batch_size n := h
  calc (i + 1) * batch_size n ≤ n / batch_size n * batch_size n :=
        Nat.mul_le_mul_right _ h1
    _ ≤ n := Nat.div_mul_le_self n (batch_size n)

lemma succ_mul_batch_le_sub (n i : Nat) (h : i < num_batches n) :
    (i + 1) * batch_size n ≤ n - n % batch_size n := by
  have hdm := Nat.div_add_mod n (batch_size n)
  have hcomm : n / batch_size n * batch_size n =
      batch_size n * (n / batch_size n) := Nat.mul_comm _ _
  have h1 : (i + 1) * batch_size n ≤ n / batch_size n * batch_size n :=
    Nat.mul_le_mul_right _ h
  omega

lemma pySlice_batch_length (X : Mat) (i : Nat)
    (h : (i + 1) * batch_size X.length ≤ X.length) :
    (pySlice X (i * batch_size X.length)
      ((i + 1) * batch_size X.length)).length = batch_size X.length := by
  rw [pySlice_length]
  rw [Nat.succ_mul] at h ⊢
  omega

lemma batchFold_stop (X : Mat) (e : Nat) (s : FitState GenP DisP) :
    (batchFold ops rng X e s).stop = s.stop :=
  foldl_batch_stop ops rng X e _ s

lemma batchFold_trace_index (X : Mat) (e : Nat) (s : FitState GenP DisP) :
    ((batchFold ops rng X e s).trace).map BatchRec.index =
      s.trace.map BatchRec.index ++ List.range (num_batches X.length) :=
  foldl_batch_trace_index ops rng X e _ s

lemma batchFold_trace_mem (X : Mat) (e : Nat) (s : FitState GenP DisP)
    (rec : BatchRec) (h : rec ∈ (batchFold ops rng X e s).trace) :
    rec ∈ s.trace ∨
      (rec.epoch = e ∧ rec.index < num_batches X.length ∧
       rec.stopAt = s.stop ∧
       rec.dataRows = pySlice X (rec.index * batch_size X.length)
         ((rec.index + 1) * batch_size X.length) ∧
       rec.genRows.length = batch_size X.length ∧
       rec.xBatch = rec.dataRows ++ rec.genRows ∧
       rec.labels = List.replicate (batch_size X.length) 1 ++
         List.replicate (batch_size X.length) 0 ∧
       rec.genUpdated = decide (s.stop = 0)) := by
  rcases foldl_batch_trace_mem ops rng X e
      (List.range (num_batches X.length)) s rec h with h1 | h2
  · exact Or.inl h1
  · obtain ⟨he, hi, rest⟩ := h2
    exact Or.inr ⟨he, List.mem_range.1 hi, rest⟩

lemma check_array_error_eq (Z : Mat) (e : PyError)
    (h : check_array Z = Except.error e) : e = PyError.invalidInput := by
  unfold check_array at h
  split at h
  · simp at h
  · injection h with h1
    exact h1.symm

lemma fit_ok_discriminator (se : Int) (g0 : GenP) (d0 : DisP) (X : Mat)
    (det : Detector GenP DisP) (b : Bool)
    (h : fit ops rng se g0 d0 X = Except.ok (det, b)) :
    ∃ d, det.discriminator = some d := by
  unfold fit at h
  split at h
  · simp at h
  · split at h
    · injection h with h1
      have h2 := (Prod.mk.inj h1).1
      exact ⟨_, by rw [← h2]⟩
    · injection h with h1
      have h2 := (Prod.mk.inj h1).1
      exact ⟨_, by rw [← h2]⟩

lemma decision_function_some (d : DisP) (det : Detector GenP DisP)
    (hd : det.discriminator = some d) (Z : Mat) :
    decision_function ops det Z =
      (match check_array Z with
       | Except.error e => Except.error e
       | Except.ok Z1 => Except.ok (Z1.map (ops.disRow d))) := by
  unfold decision_function
  rw [hd]

lemma decision_function_some_ne_notFitted (d : DisP)
    (det : Detector GenP DisP) (hd : det.discriminator = some d) (Z : Mat) :
    decision_function ops det Z ≠ Except.error PyError.notFitted := by
  rw [decision_function_some ops d det hd Z]
  cases hZ : check_array Z with
  | error e =>
    have he := check_array_error_eq Z e hZ
    subst he
    exact fun hcon => PyError.noConfusion (Except.error.inj hcon)
  | ok Z1 =>
    exact fun hcon => Except.noConfusion hcon

end Lemmas

section Claims

variable {GenP DisP : Type} (ops : KerasOps GenP DisP) (rng : RNG)

/-- Claim C1: for every `fit(X)` call with `stop_epochs ≥ 1`, the epoch loop
terminates during epoch index 0: immediately after the first epoch's batch
loop finishes, `fit` computes discriminator predictions over the entire
training matrix `X` as `decision_scores_`, calls the score-processing hook,
and returns `self`, so no epoch with index ≥ 1 ever executes its batch loop,
regardless of the configured `epochs = stop_epochs * 3`. -/
theorem claim_C1_return_during_epoch_zero (se : Int) (g0 : GenP) (d0 : DisP)
    (X : Mat) (hs : 1 ≤ se) (hX : validX X) :
    ∃ det : Detector GenP DisP,
      fit ops rng se g0 d0 X = Except.ok (det, true) ∧
      det.processed = true ∧
      (∃ d, det.discriminator = some d ∧
        det.decision_scores_ = some (X.map (ops.disRow d))) ∧
      ∀ rec ∈ det.trace, rec.epoch = 0 := by
  refine ⟨_, fit_of_one_le ops rng se g0 d0 X hs hX, rfl, ⟨_, rfl, rfl⟩, ?_⟩
  intro rec h
  rcases batchFold_trace_mem ops rng X 0 (initFitState g0 d0) rec h with h1 | h2
  · simp [initFitState] at h1
  · exact h2.1

/-- Claim C2: for every valid training matrix `X` with
`n_samples ≥ 2 * batch_size` (`batch_size = min(500, n_samples)`), `fit(X)`
completes without raising and afterwards `decision_scores_` is a vector of
length `n_samples`, one scalar score per training row.  (`stop_epochs ≥ 1` is
the documented domain of that option.) -/
theorem claim_C2_scores_length (se : Int) (g0 : GenP) (d0 : DisP) (X : Mat)
    (hs : 1 ≤ se) (hX : validX X)
    (hn : 2 * batch_size X.length ≤ X.length) :
    ∃ (det : Detector GenP DisP) (scores : List Int),
      fit ops rng se g0 d0 X = Except.ok (det, true) ∧
      det.decision_scores_ = some scores ∧
      scores.length = X.length := by
  refine ⟨_, _, fit_of_one_le ops rng se g0 d0 X hs hX, rfl, ?_⟩
  simp

/-- Claim C3: for every `X` on which `fit` was just called, calling
`decision_function(X)` immediately after `fit` (discriminator parameters
unchanged) returns exactly the stored `decision_scores_`, same shape and
order. -/
theorem claim_C3_decision_function_matches_scores (se : Int) (g0 : GenP)
    (d0 : DisP) (X : Mat) (hs : 1 ≤ se) (hX : validX X) :
    ∃ (det : Detector GenP DisP) (scores : List Int),
      fit ops rng se g0 d0 X = Except.ok (det, true) ∧
      det.decision_scores_ = some scores ∧
      decision_function ops det X = Except.ok scores := by
  have hca : check_array X = Except.ok X := by
    unfold check_array; rw [if_pos hX]
  refine ⟨_, _, fit_of_one_le ops rng se g0 d0 X hs hX, rfl, ?_⟩
  simp only [decision_function, hca]

/-- Claim C4: during `fit`, the stop flag starts at 0 and is set to 1 after
any epoch whose index + 1 exceeds `stop_epochs`; this transition is one-way
(once `stop = 1` it never returns to 0), and while `stop = 1` the
generator-phase step only evaluates the combined model's loss without
applying a parameter update (the generator weights are untouched and the
batch record shows an evaluate, not a train). -/
theorem claim_C4_stop_flag_semantics (se : Int) (X : Mat) (g0 : GenP)
    (d0 : DisP) :
    (initFitState g0 d0 : FitState GenP DisP).stop = 0 ∧
    (∀ (e : Nat) (s : FitState GenP DisP) (i : Nat),
      (batchBody ops rng X e s i).stop = s.stop) ∧
    (∀ (e : Nat) (s : FitState GenP DisP), ∃ r,
      epochBody ops rng se X e s = Except.error r ∧
      r.state.stop = if (e : Int) + 1 > se then 1 else s.stop) ∧
    (∀ (e : Nat) (s : FitState GenP DisP) (r : FitRet GenP DisP),
      s.stop = 1 → epochBody ops rng se X e s = Except.error r →
      r.state.stop = 1) ∧
    (∀ (e : Nat) (s : FitState GenP DisP) (i : Nat), s.stop = 1 →
      (batchBody ops rng X e s i).genP = s.genP ∧
      (batchBody ops rng X e s i).histG = s.histG ++
        [ops.combEval s.genP (batchBody ops rng X e s i).disP
          (mkNoise rng s.ctr (batch_size X.length) (numFeatures X))
          (List.replicate (batch_size X.length) 1)] ∧
      (batchBody ops rng X e s i).trace = s.trace ++ [mkRec ops rng X e s i] ∧
      (mkRec ops rng X e s i).genUpdated = false) := by
  refine ⟨rfl, batchBody_stop ops rng X, ?_, ?_, ?_⟩
  · intro e s
    refine ⟨_, rfl, ?_⟩
    by_cases h : (e : Int) + 1 > se <;> simp [h, batchFold_stop]
  · intro e s r h1 h2
    injection h2 with h3
    subst h3
    by_cases h : (e : Int) + 1 > se <;> simp [h, batchFold_stop, h1]
  · intro e s i h
    refine ⟨batchBody_genP_frozen ops rng X e s i h,
      batchBody_histG_frozen ops rng X e s i h,
      batchBody_trace ops rng X e s i, ?_⟩
    simp [mkRec, h]

/-- Claim C5: for every training size, the discriminator built by
`create_discriminator` has exactly one hidden dense layer whose width equals
`⌈√(n_samples)⌉` (so `n_samples = 10` gives width 4, `100` gives 10, `101`
gives 11), followed by a single-unit sigmoid output layer. -/
theorem claim_C5_discriminator_structure (latent_size data_size : Nat) :
    create_discriminator latent_size data_size =
      [{ units := ceilSqrt data_size, input_dim := some latent_size,
         activation := Activation.relu },
       { units := 1, input_dim := none, activation := Activation.sigmoid }] ∧
    ceilSqrt data_size = ⌈Real.sqrt data_size⌉₊ ∧
    ceilSqrt 10 = 4 ∧ ceilSqrt 100 = 10 ∧ ceilSqrt 101 = 11 :=
  ⟨rfl, ceilSqrt_eq data_size,
   by rw [ceilSqrt_val 10 3 (by decide) (by decide)]; decide,
   by rw [ceilSqrt_val 100 10 (by decide) (by decide)]; decide,
   by rw [ceilSqrt_val 101 10 (by decide) (by decide)]; decide⟩

/-- Claim C6: in every `fit` call, `batch_size = min(500, n_samples)` and
`num_batches = floor(n_samples / batch_size)`; the executed batches are
exactly the indices `0, …, num_batches - 1` in order, each batch `i` reads
exactly rows `[i*batch_size, (i+1)*batch_size)` of `X`, every batch lies
within the first `n_samples - n_samples % batch_size` rows (so the trailing
`n_samples mod batch_size` samples are never processed), and for
`n_samples = 1200`: `batch_size = 500`, `num_batches = 2`, 200 trailing
samples unused. -/
theorem claim_C6_batch_partition (se : Int) (g0 : GenP) (d0 : DisP) (X : Mat)
    (hs : 1 ≤ se) (hX : validX X) :
    batch_size X.length = min 500 X.length ∧
    num_batches X.length = X.length / batch_size X.length ∧
    (∃ det : Detector GenP DisP,
      fit ops rng se g0 d0 X = Except.ok (det, true) ∧
      det.trace.map BatchRec.index = List.range (num_batches X.length) ∧
      ∀ rec ∈ det.trace,
        rec.dataRows = pySlice X (rec.index * batch_size X.length)
          ((rec.index + 1) * batch_size X.length) ∧
        (rec.index + 1) * batch_size X.length ≤
          X.length - X.length % batch_size X.length) ∧
    num_batches X.length * batch_size X.length +
      X.length % batch_size X.length = X.length ∧
    batch_size 1200 = 500 ∧ num_batches 1200 = 2 ∧
    1200 % batch_size 1200 = 200 := by
  refine ⟨rfl, rfl, ⟨_, fit_of_one_le ops rng se g0 d0 X hs hX, ?_, ?_⟩,
    ?_, by decide, by decide, by decide⟩
  · simpa [initFitState] using
      batchFold_trace_index ops rng X 0 (initFitState g0 d0)
  · intro rec h
    rcases batchFold_trace_mem ops rng X 0 (initFitState g0 d0) rec h
      with h1 | h2
    · simp [initFitState] at h1
    · obtain ⟨-, hidx, -, hd, -, -, -, -⟩ := h2
      exact ⟨hd, succ_mul_batch_le_sub X.length rec.index hidx⟩
  · rw [show num_batches X.length * batch_size X.length =
        batch_size X.length * (X.length / batch_size X.length) from
        Nat.mul_comm _ _]
    exact Nat.div_add_mod _ _

/-- Claim C7: in every executed batch of `fit`, the discriminator training
batch is the real-data batch followed by the generated synthetic batch, with
label vector `[1]` repeated `batch_size` times followed by `[0]` repeated
`batch_size` times, so the batch has exactly `2 * batch_size` rows with
balanced labels. -/
theorem claim_C7_discriminator_batch (se : Int) (g0 : GenP) (d0 : DisP)
    (X : Mat) (hs : 1 ≤ se) (hX : validX X) :
    ∃ det : Detector GenP DisP,
      fit ops rng se g0 d0 X = Except.ok (det, true) ∧
      ∀ rec ∈ det.trace,
        rec.xBatch = rec.dataRows ++ rec.genRows ∧
        rec.dataRows.length = batch_size X.length ∧
        rec.genRows.length = batch_size X.length ∧
        rec.xBatch.length = 2 * batch_size X.length ∧
        rec.labels = List.replicate (batch_size X.length) 1 ++
          List.replicate (batch_size X.length) 0 ∧
        rec.labels.count 1 = batch_size X.length ∧
        rec.labels.count 0 = batch_size X.length := by
  refine ⟨_, fit_of_one_le ops rng se g0 d0 X hs hX, ?_⟩
  intro rec h
  rcases batchFold_trace_mem ops rng X 0 (initFitState g0 d0) rec h
    with h1 | h2
  · simp [initFitState] at h1
  · obtain ⟨-, hidx, -, hd, hg, hx, hl, -⟩ := h2
    have hdlen : rec.dataRows.length = batch_size X.length := by
      rw [hd]
      exact pySlice_batch_length X rec.index
        (succ_mul_batch_le X.length rec.index hidx)
    refine ⟨hx, hdlen, hg, ?_, hl, ?_, ?_⟩
    · rw [hx, List.length_append, hdlen, hg]
      omega
    · rw [hl]
      simp [List.count_append, List.count_replicate]
    · rw [hl]
      simp [List.count_append, List.count_replicate]

/-- Claim C8: calling `decision_function(X)` on an instance on which `fit`
has not run raises a not-fitted error immediately, for every input `X`
(before any use of `X`); after any `fit` call that returned, the
`discriminator` attribute exists, so `decision_function` never raises a
not-fitted error. -/
theorem claim_C8_not_fitted (GenP DisP : Type) (ops : KerasOps GenP DisP)
    (rng : RNG) :
    (∀ X : Mat, decision_function ops (initDetector GenP DisP) X =
      Except.error PyError.notFitted) ∧
    (∀ (se : Int) (g0 : GenP) (d0 : DisP) (X : Mat)
      (det : Detector GenP DisP) (b : Bool),
      fit ops rng se g0 d0 X = Except.ok (det, b) →
      ∀ Z : Mat, decision_function ops det Z ≠
        Except.error PyError.notFitted) := by
  constructor
  · intro X
    rfl
  · intro se g0 d0 X det b h Z
    obtain ⟨d, hd⟩ := fit_ok_discriminator ops rng se g0 d0 X det b h
    exact decision_function_some_ne_notFitted ops d det hd Z

/-- Claim C9: in every execution of `fit` with `stop_epochs ≥ 1`, the
`stop = 1` branch of the generator phase (evaluate-only, no parameter
update) is unreachable: every executed batch runs with `stop = 0` and
performs a real generator training update, so the generator is never
actually frozen. -/
theorem claim_C9_freeze_branch_unreachable (se : Int) (g0 : GenP) (d0 : DisP)
    (X : Mat) (hs : 1 ≤ se) (hX : validX X) :
    ∃ det : Detector GenP DisP,
      fit ops rng se g0 d0 X = Except.ok (det, true) ∧
      ∀ rec ∈ det.trace, rec.stopAt = 0 ∧ rec.genUpdated = true := by
  refine ⟨_, fit_of_one_le ops rng se g0 d0 X hs hX, ?_⟩
  intro rec h
  rcases batchFold_trace_mem ops rng X 0 (initFitState g0 d0) rec h
    with h1 | h2
  · simp [initFitState] at h1
  · obtain ⟨-, -, hst, -, -, -, -, hu⟩ := h2
    exact ⟨hst, hu⟩

/-- Claim C10: if `stop_epochs ≤ 0` (so `epochs = stop_epochs * 3` is not
positive), `fit(X)` executes no training batch, never sets
`decision_scores_`, and returns `None` instead of `self`, because the only
return statement lies inside the epoch loop whose body never runs. -/
theorem claim_C10_nonpositive_stop_epochs (se : Int) (g0 : GenP) (d0 : DisP)
    (X : Mat) (hs : se ≤ 0) (hX : validX X) :
    ∃ det : Detector GenP DisP,
      fit ops rng se g0 d0 X = Except.ok (det, false) ∧
      det.decision_scores_ = none ∧ det.trace = [] ∧
      det.train_history = ([], []) :=
  ⟨_, fit_of_nonpos ops rng se g0 d0 X hs hX, rfl, rfl, rfl⟩

end Claims

section Witnesses

/-- Witness for C1 at a concrete instantiation. -/
theorem claim_C1_witness :
    ∃ det : Detector Unit Unit,
      fit ops0 rng0 1 () () [[0]] = Except.ok (det, true) ∧
      ∀ rec ∈ det.trace, rec.epoch = 0 := by
  obtain ⟨det, h1, -, -, h4⟩ :=
    claim_C1_return_during_epoch_zero ops0 rng0 1 () () [[0]]
      (by decide) (by decide)
  exact ⟨det, h1, h4⟩

/-- Witness for C2 at a concrete 1000-row matrix. -/
theorem claim_C2_witness :
    ∃ (det : Detector Unit Unit) (scores : List Int),
      fit ops0 rng0 1 () () X1000 = Except.ok (det, true) ∧
      det.decision_scores_ = some scores ∧
      scores.length = X1000.length :=
  claim_C2_scores_length ops0 rng0 1 () () X1000 (by decide)
    (by
      refine ⟨List.cons_ne_nil _ _, Nat.one_pos, ?_⟩
      intro r hr
      rcases List.mem_cons.1 hr with h | h
      · rw [h]; rfl
      · rw [List.eq_of_mem_replicate h]; rfl)
    (by
      have hlen : X1000.length = 1000 := by
        unfold X1000
        rw [List.length_cons, List.length_replicate]
      rw [hlen]
      decide)

/-- Witness for C3 at a concrete instantiation. -/
theorem claim_C3_witness :
    ∃ (det : Detector Unit Unit) (scores : List Int),
      fit ops0 rng0 1 () () [[0]] = Except.ok (det, true) ∧
      det.decision_scores_ = some scores ∧
      decision_function ops0 det [[0]] = Except.ok scores :=
  claim_C3_decision_function_matches_scores ops0 rng0 1 () () [[0]]
    (by decide) (by decide)

/-- Witness for C4: at a concrete state with the stop flag raised, the
generator weights are untouched by a batch step. -/
theorem claim_C4_witness :
    (batchBody ops0 rng0 [[0]] 0 stateStop1 0).genP = stateStop1.genP :=
  ((claim_C4_stop_flag_semantics ops0 rng0 1 [[0]] () ()).2.2.2.2 0
    stateStop1 0 rfl).1

/-- Witness for C6 at a concrete instantiation. -/
theorem claim_C6_witness :
    ∃ det : Detector Unit Unit,
      fit ops0 rng0 1 () () [[0]] = Except.ok (det, true) ∧
      det.trace.map BatchRec.index = List.range (num_batches 1) := by
  obtain ⟨-, -, ⟨det, h1, h2, -⟩, -, -⟩ :=
    claim_C6_batch_partition ops0 rng0 1 () () [[0]] (by decide) (by decide)
  exact ⟨det, h1, h2⟩

/-- Witness for C7 at a concrete instantiation. -/
theorem claim_C7_witness :
    ∃ det : Detector Unit Unit,
      fit ops0 rng0 1 () () [[0]] = Except.ok (det, true) ∧
      ∀ rec ∈ det.trace, rec.labels.count 1 = batch_size 1 := by
  obtain ⟨det, h1, h2⟩ :=
    claim_C7_discriminator_batch ops0 rng0 1 () () [[0]]
      (by decide) (by decide)
  exact ⟨det, h1, fun rec hrec => ((h2 rec hrec).2.2.2.2.2.1)⟩

/-- Witness for C8: after a concrete `fit` call that returned `None`, the
discriminator attribute exists and no not-fitted error is raised. -/
theorem claim_C8_witness :
    decision_function ops0 det0 [[0]] ≠ Except.error PyError.notFitted :=
  (claim_C8_not_fitted Unit Unit ops0 rng0).2 0 () () [[0]] det0 false
    (by rfl) [[0]]

/-- Witness for C9 at a concrete instantiation. -/
theorem claim_C9_witness :
    ∃ det : Detector Unit Unit,
      fit ops0 rng0 1 () () [[0]] = Except.ok (det, true) ∧
      ∀ rec ∈ det.trace, rec.stopAt = 0 ∧ rec.genUpdated = true :=
  claim_C9_freeze_branch_unreachable ops0 rng0 1 () () [[0]]
    (by decide) (by decide)

/-- Witness for C10 at a concrete instantiation. -/
theorem claim_C10_witness :
    ∃ det : Detector Unit Unit,
      fit ops0 rng0 0 () () [[0]] = Except.ok (det, false) ∧
      det.decision_scores_ = none ∧ det.trace = [] ∧
      det.train_history = ([], []) :=
  claim_C10_nonpositive_stop_epochs ops0 rng0 0 () () [[0]]
    (by decide) (by decide)

end Witnesses

end SoGaal
